import Mathlib

/-!
Shallow embedding of the razer-blade-linux-support daemon
(`src/razer_control_gui/src/daemon/daemon.rs`) and proofs about it.

The daemon shares two mutex-guarded singletons (`DEV_MANAGER`, the Device
Controller, and `EFFECT_MANAGER`, the Effect Compositor) between several
background tasks and a serial IPC dispatcher.  Pure decision logic is
translated directly; lock acquisition results, device presence and hardware
call outcomes are explicit boolean parameters of the embedded functions, and
temperatures (`f32` in the source, compared only against exact decimal
constants) are embedded as rationals.
-/

namespace RazerDaemon

/-! ## Lock model (Shared State Guard)

The two process-wide locks of `daemon.rs`: `DEV_MANAGER` (Device Controller)
and `EFFECT_MANAGER` (Effect Compositor).  Each code path that touches both
is transcribed below as the sequence of lock acquisitions it performs, in
source order. -/

inductive LockId
  | device
  | effect
deriving DecidableEq, Repr

/-- Fixed global rank: Device Controller lock before Effect Compositor lock. -/
def LockId.rank : LockId → Nat
  | .device => 0
  | .effect => 1

/-- Lock acquisitions of the `SetEffect` branch of `process_client_request`
(daemon.rs lines 490 and 528): `DEV_MANAGER` is already held from line 490
when `EFFECT_MANAGER.lock()` is taken at line 528. -/
def setEffectLockOrder : List LockId := [.device, .effect]

/-- Lock acquisitions of the `SetStandardEffect` branch (lines 490 and 559). -/
def setStandardEffectLockOrder : List LockId := [.device, .effect]

/-- Lock acquisitions of the `GetKeyboardRGB` branch (lines 490 and 515). -/
def getKeyboardRGBLockOrder : List LockId := [.device, .effect]

/-- Lock acquisitions of one keyboard-animator loop iteration (lines 133-134):
the `DEV_MANAGER` guard is a temporary that lives for the whole `if let` body,
so `EFFECT_MANAGER.lock()` at line 134 is taken while it is held. -/
def animatorLockOrder : List LockId := [.device, .effect]

/-- All code paths of the daemon that hold both locks simultaneously. -/
def dualLockPaths : List (List LockId) :=
  [setEffectLockOrder, setStandardEffectLockOrder, getKeyboardRGBLockOrder,
   animatorLockOrder]

/-- `a` is acquired strictly before `b` on path `p` (so `a` is still held when
`b` is requested, every acquisition on a path being released only at its end). -/
def acquiresBefore (p : List LockId) (a b : LockId) : Prop :=
  ∃ i j : Fin p.length, (i : ℕ) < (j : ℕ) ∧ p.get i = a ∧ p.get j = b

/-- Two concurrently scheduled paths can reach the classic two-lock deadlock:
one task holds `a` and waits for `b` while the other holds `b` and waits for
`a`. -/
def canDeadlock (p q : List LockId) : Prop :=
  ∃ a b : LockId, acquiresBefore p a b ∧ acquiresBefore q b a

/-- A path respects the global lock order when its acquisitions are strictly
increasing in rank. -/
def respectsLockOrder (p : List LockId) : Prop :=
  p.Pairwise (fun a b => a.rank < b.rank)

instance (p : List LockId) : Decidable (respectsLockOrder p) := by
  unfold respectsLockOrder; infer_instance

theorem acquiresBefore_rank_lt {p : List LockId} {a b : LockId}
    (hp : respectsLockOrder p) (hab : acquiresBefore p a b) :
    a.rank < b.rank := by
  obtain ⟨i, j, hij, ha, hb⟩ := hab
  have := (List.pairwise_iff_get.mp hp) i j hij
  rw [ha, hb] at this
  exact this

theorem no_deadlock_of_respects {p q : List LockId}
    (hp : respectsLockOrder p) (hq : respectsLockOrder q) :
    ¬ canDeadlock p q := by
  rintro ⟨a, b, hpab, hqba⟩
  have h1 := acquiresBefore_rank_lt hp hpab
  have h2 := acquiresBefore_rank_lt hq hqba
  omega

/-! ## Temperature-fan control loop (daemon.rs lines 327-397) -/

def TEMP_LOW : ℚ := 50
def TEMP_MEDIUM : ℚ := 65
def TEMP_HIGH : ℚ := 75
def TEMP_CRITICAL : ℚ := 85

def FAN_AUTO : Int := 0
def FAN_LOW : Int := 2000
def FAN_MEDIUM : Int := 3500
def FAN_HIGH : Int := 4500
def FAN_MAX : Int := 5500

/-- `last_fan_speed` starts at the `-1` sentinel (daemon.rs line 344). -/
def last_fan_speed_init : Int := -1

/-- The `required_fan_speed` decision chain of daemon.rs lines 351-361. -/
def requiredFanSpeed (t : ℚ) : Int :=
  if t < TEMP_LOW then FAN_AUTO
  else if t < TEMP_MEDIUM then FAN_LOW
  else if t < TEMP_HIGH then FAN_MEDIUM
  else if t < TEMP_CRITICAL then FAN_HIGH
  else FAN_MAX

/-- Per-cycle environment of the temperature loop: whether the `DEV_MANAGER`
lock acquisition succeeds, whether a device was discovered, the AC state the
device reports, and whether the `set_fan_rpm` hardware call succeeds. -/
structure CycleEnv where
  devLockOk : Bool
  devicePresent : Bool
  acState : Bool
  writeSucceeds : Bool
deriving DecidableEq, Repr

/-- One iteration of the loop body (daemon.rs lines 346-391), given the polled
temperature (`none` = `get_cpu_temperature` failed).  Returns the new
`last_fan_speed` and the number of `set_fan_rpm` hardware calls issued
(0 or 1).  `last_fan_speed` is updated only when the write succeeds
(lines 371-372). -/
def tempMonitorStep (env : CycleEnv) (last : Int) (temp : Option ℚ) :
    Int × Nat :=
  match temp with
  | none => (last, 0)
  | some t =>
    let required := requiredFanSpeed t
    if required ≠ last then
      if env.devLockOk then
        if env.devicePresent then
          if env.writeSucceeds then (required, 1) else (last, 1)
        else (last, 0)
      else (last, 0)
    else (last, 0)

/-- Run the loop over a sequence of cycles, accumulating the number of
hardware calls. -/
def tempMonitorRun : List (CycleEnv × Option ℚ) → Int → Int × Nat
  | [], last => (last, 0)
  | (env, temp) :: rest, last =>
    let s := tempMonitorStep env last temp
    let r := tempMonitorRun rest s.1
    (r.1, s.2 + r.2)

theorem tempMonitorRun_in_band (seq : List (CycleEnv × Option ℚ)) (r : Int)
    (hband : ∀ p ∈ seq, ∃ t, p.2 = some t ∧ requiredFanSpeed t = r) :
    tempMonitorRun seq r = (r, 0) := by
  induction seq with
  | nil => rfl
  | cons p rest ih =>
    obtain ⟨env, temp⟩ := p
    obtain ⟨t, ht, hr⟩ := hband (env, temp) (List.mem_cons_self _ rest)
    replace ht : temp = some t := ht
    subst ht
    have hstep : tempMonitorStep env r (some t) = (r, 0) := by
      simp [tempMonitorStep, hr]
    have hrest := ih (fun q hq => hband q (List.mem_cons_of_mem _ hq))
    simp [tempMonitorRun, hstep, hrest]

/-! ## CPU temperature reader (daemon.rs lines 399-468)

`get_cpu_temperature` shells out to `sensors` and scans its output lines.
The embedding works at the level of the numeric candidates parsed from those
lines: `primary` holds the values parsed from `_input:` lines of
`sensors -A -u` (lines 412-428, scanned in order), `fallback` holds the
values parsed from `°C` tokens of plain `sensors` output (lines 439-455).
The string filtering that selects candidate lines is external to the claims;
scaling and the sanity range check are translated exactly. -/

/-- Millidegree conversion of daemon.rs line 421. -/
def scaleCelsius (t : ℚ) : ℚ := if t > 1000 then t / 1000 else t

/-- Scan of the primary (`sensors -A -u`) candidates, lines 418-427: scale,
then return the first scaled value inside the open sanity range. -/
def findPrimaryTemp : List ℚ → Option ℚ
  | [] => none
  | t :: rest =>
    let celsius_temp := scaleCelsius t
    if 20 < celsius_temp ∧ celsius_temp < 120 then some celsius_temp
    else findPrimaryTemp rest

/-- Scan of the fallback (plain `sensors`) candidates, lines 445-453: no
scaling, same open sanity range. -/
def findFallbackTemp : List ℚ → Option ℚ
  | [] => none
  | t :: rest =>
    if 20 < t ∧ t < 120 then some t
    else findFallbackTemp rest

/-- `get_cpu_temperature` (lines 399-468): primary scan first, fallback scan
if it produced nothing, `none` when both fail. -/
def get_cpu_temperature (primary fallback : List ℚ) : Option ℚ :=
  match findPrimaryTemp primary with
  | some c => some c
  | none => findFallbackTemp fallback

theorem findPrimaryTemp_range {l : List ℚ} {t : ℚ}
    (h : findPrimaryTemp l = some t) : 20 < t ∧ t < 120 := by
  induction l with
  | nil => simp [findPrimaryTemp] at h
  | cons x rest ih =>
    by_cases hx : 20 < scaleCelsius x ∧ scaleCelsius x < 120
    · simp only [findPrimaryTemp, if_pos hx, Option.some.injEq] at h
      exact h ▸ hx
    · simp only [findPrimaryTemp, if_neg hx] at h
      exact ih h

theorem findFallbackTemp_range {l : List ℚ} {t : ℚ}
    (h : findFallbackTemp l = some t) : 20 < t ∧ t < 120 := by
  induction l with
  | nil => simp [findFallbackTemp] at h
  | cons x rest ih =>
    by_cases hx : 20 < x ∧ x < 120
    · simp only [findFallbackTemp, if_pos hx, Option.some.injEq] at h
      exact h ▸ hx
    · simp only [findFallbackTemp, if_neg hx] at h
      exact ih h

theorem findPrimaryTemp_none {l : List ℚ}
    (h : ∀ t ∈ l, ¬(20 < scaleCelsius t ∧ scaleCelsius t < 120)) :
    findPrimaryTemp l = none := by
  induction l with
  | nil => rfl
  | cons x rest ih =>
    simp only [findPrimaryTemp, if_neg (h x (List.mem_cons_self _ _))]
    exact ih fun t ht => h t (List.mem_cons_of_mem _ ht)

theorem findFallbackTemp_none {l : List ℚ}
    (h : ∀ t ∈ l, ¬(20 < t ∧ t < 120)) :
    findFallbackTemp l = none := by
  induction l with
  | nil => rfl
  | cons x rest ih =>
    simp only [findFallbackTemp, if_neg (h x (List.mem_cons_self _ _))]
    exact ih fun t ht => h t (List.mem_cons_of_mem _ ht)

/-! ## IPC command dispatcher (daemon.rs lines 470-601)

The dispatcher slice embedded here covers the branches the claims are about:
`SetEffect`, `SetStandardEffect`, `GetKeyboardRGB` and
`GetBatteryHealthOptimizer`.  The Effect Compositor (`kbd` module) and the
Device Controller (`device` module) are external collaborators; their state
is carried explicitly and the compositor operations the dispatcher invokes
are recorded as a trace. -/

/-- Effect layer variants constructed by the `SetEffect` branch
(daemon.rs lines 530-536); parameters are the raw numeric argument list. -/
inductive Layer
  | Static (params : List Nat)
  | StaticGradient (params : List Nat)
  | WaveGradient (params : List Nat)
  | BreathSingle (params : List Nat)
deriving DecidableEq, Repr

/-- Modelled from the spec: the Effect Compositor owns an ordered stack of
layers, each with a 90-key boolean mask; `push_effect` adds a topmost layer
and `pop_effect` removes the topmost layer (spec sections 3 and 6; the
compositor implementation itself is outside `src/`). -/
structure EffectManager where
  stack : List (Layer × List Bool)
deriving DecidableEq, Repr

def push_effect (k : EffectManager) (l : Layer) (mask : List Bool) :
    EffectManager :=
  { stack := (l, mask) :: k.stack }

def pop_effect (k : EffectManager) : EffectManager :=
  { stack := k.stack.tail }

/-- Modelled from the spec: `get_map(layer)` returns the composited color map
for a layer.  The composition math is explicitly out of scope (spec section
1), so the map's value is opaque here; nothing below depends on it. -/
def get_map (_k : EffectManager) (_layer : Nat) : List Nat := []

/-- Hardware-native standard effect identifiers (`device::RazerLaptop`
constants named at daemon.rs lines 562-568; the `device` module is outside
`src/`). -/
inductive StandardEffectId
  | OFF | WAVE | REACTIVE | BREATHING | SPECTRUM | STATIC | STARLIGHT
deriving DecidableEq, Repr

/-- Device Controller state relevant to the dispatcher: whether discovery
found a device (`get_device`), the BHO getter's answer, and the boolean the
hardware `set_standard_effect` call returns when invoked. -/
structure DeviceManager where
  devicePresent : Bool
  bho : Option (Bool × Nat)
  stdEffectResult : Bool
deriving DecidableEq, Repr

/-- Shared state plus the health of the two lock acquisitions an operation
would perform: `devLockOk` (`DEV_MANAGER`) and `effLockOk`
(`EFFECT_MANAGER`) are false when the corresponding lock is poisoned. -/
structure SysState where
  devLockOk : Bool
  effLockOk : Bool
  dev : DeviceManager
  km : EffectManager
deriving DecidableEq, Repr

/-- Result of running a code path that may `unwrap()` a poisoned lock. -/
inductive Outcome (α : Type)
  | ok (a : α)
  | panicked
deriving DecidableEq, Repr

/-- Compositor operations invoked by a dispatcher branch, in order. -/
inductive KOp
  | pop
  | push (l : Layer)
deriving DecidableEq, Repr

def applyKOp (k : EffectManager) : KOp → EffectManager
  | .pop => pop_effect k
  | .push l => push_effect k l (List.replicate 90 true)

def applyKOps (k : EffectManager) (ops : List KOp) : EffectManager :=
  ops.foldl applyKOp k

/-- The request variants of `comms::DaemonCommand` the claims are about
(the `comms` module is outside `src/`; variants and payloads follow the
dispatcher's patterns at daemon.rs lines 514, 526, 555, 581). -/
inductive DaemonCommand
  | SetEffect (name : String) (params : List Nat)
  | SetStandardEffect (name : String) (params : List Nat)
  | GetKeyboardRGB (layer : Nat)
  | GetBatteryHealthOptimizer
deriving DecidableEq, Repr

/-- The matching `comms::DaemonResponse` variants. -/
inductive DaemonResponse
  | SetEffect (result : Bool)
  | SetStandardEffect (result : Bool)
  | GetKeyboardRGB (layer : Nat) (rgbdata : List Nat)
  | GetBatteryHealthOptimizer (is_on : Bool) (threshold : Nat)
deriving DecidableEq, Repr

/-- Layer construction of the `SetEffect` branch (daemon.rs lines 530-536). -/
def parseEffect (name : String) (params : List Nat) : Option Layer :=
  match name with
  | "static" => some (.Static params)
  | "static_gradient" => some (.StaticGradient params)
  | "wave_gradient" => some (.WaveGradient params)
  | "breathing_single" => some (.BreathSingle params)
  | _ => none

/-- The name match of the `SetStandardEffect` branch (daemon.rs lines
561-570): a known name invokes the hardware `set_standard_effect` call and
yields its boolean result, an unknown name yields `false` without invoking
the hardware. -/
def stdEffectCallResult (d : DeviceManager) (name : String) : Bool :=
  match name with
  | "off" | "wave" | "reactive" | "breathing" | "spectrum"
  | "static" | "starlight" => d.stdEffectResult
  | _ => false

/-- `process_client_request` (daemon.rs lines 489-601).  The outer
`if let Ok(mut d) = DEV_MANAGER.lock()` tolerates a poisoned device lock by
answering `None` (lines 490, 598-600).  `SetEffect` (lines 526-553) and
`SetStandardEffect` (lines 555-577) guard the effect lock with `if let Ok`;
`GetKeyboardRGB` (line 515) calls `EFFECT_MANAGER.lock().unwrap()` and so
panics when that lock is poisoned.  Returns the response sent (`none` = no
response written), the resulting state, and the trace of compositor
operations invoked. -/
def process_client_request (st : SysState) (cmd : DaemonCommand) :
    Outcome (Option DaemonResponse × SysState × List KOp) :=
  if st.devLockOk then
    match cmd with
    | .SetEffect name params =>
      if st.effLockOk then
        if st.dev.devicePresent then
          match parseEffect name params with
          | some e =>
            let ops : List KOp := [.pop, .push e]
            .ok (some (.SetEffect true), { st with km := applyKOps st.km ops },
                 ops)
          | none => .ok (some (.SetEffect false), st, [])
        else .ok (some (.SetEffect false), st, [])
      else .ok (some (.SetEffect false), st, [])
    | .SetStandardEffect name _params =>
      if st.dev.devicePresent then
        if st.effLockOk then
          .ok (some (.SetStandardEffect (stdEffectCallResult st.dev name)),
               { st with km := applyKOps st.km [.pop] }, [.pop])
        else .ok (some (.SetStandardEffect false), st, [])
      else .ok (some (.SetStandardEffect false), st, [])
    | .GetKeyboardRGB layer =>
      if st.effLockOk then
        .ok (some (.GetKeyboardRGB layer (get_map st.km layer)), st, [])
      else .panicked
    | .GetBatteryHealthOptimizer =>
      .ok ((st.dev.bho.map fun p => .GetBatteryHealthOptimizer p.1 p.2),
           st, [])
  else .ok (none, st, [])

/-- `handle_data` (daemon.rs lines 470-487): what gets written back on the
connection, given the decode result of the read buffer (`none` = undecodable).
No response from `process_client_request` means nothing is written. -/
def handle_data (st : SysState) (decoded : Option DaemonCommand) :
    Outcome (Option DaemonResponse) :=
  match decoded with
  | none => .ok none
  | some cmd =>
    match process_client_request st cmd with
    | .ok r => .ok r.1
    | .panicked => .panicked

/-- One iteration of the keyboard animator loop body (daemon.rs lines
132-137): `DEV_MANAGER.lock().unwrap()` panics if the device lock is
poisoned; when a device is present, `EFFECT_MANAGER.lock().unwrap()` panics
if the effect lock is poisoned; otherwise the frame is rendered and the loop
continues. -/
def animatorBody (st : SysState) : Outcome SysState :=
  if st.devLockOk then
    if st.dev.devicePresent then
      if st.effLockOk then .ok st else .panicked
    else .ok st
  else .panicked

/-! ## AC-adapter signal handler (daemon.rs lines 229-281)

The `Online` property-change callback registered on the UPower AC proxy.
Everything it does happens synchronously inside the callback, which runs
during `dbus_system.process(..)` of the battery router loop (line 304): the
trace below is the ordered list of actions the router loop performs before
it can dispatch any later signal. -/

inductive AcAction
  | setAcState (online : Bool)
  | sleepSecs (n : Nat)
  | runScriptWait (arg : String)
deriving DecidableEq, Repr

/-- Environment of one AC property-change delivery: device-lock health,
whether `HOME` is set, whether `power_state_handler.sh` exists there. -/
structure AcEnv where
  devLockOk : Bool
  homeKnown : Bool
  scriptExists : Bool
deriving DecidableEq, Repr

/-- Synchronous action trace of the AC `Online` callback (daemon.rs lines
230-279): update cached AC state under `if let Ok` (lines 233-235), sleep 2
seconds (line 247), then, when `HOME` is known and the script exists, run
`bash power_state_handler.sh plugged|unplugged` via `.output()`, which waits
for the script to exit (lines 250-278). -/
def acSignalHandlerTrace (env : AcEnv) (online : Bool) : List AcAction :=
  (if env.devLockOk then [.setAcState online] else []) ++
  [.sleepSecs 2] ++
  (if env.homeKnown then
    if env.scriptExists then
      [.runScriptWait (if online then "plugged" else "unplugged")]
    else []
   else [])

/-- An action during which the router loop is blocked (cannot dispatch later
signals): the settle sleep and the waited-on script run. -/
def acActionBlocks : AcAction → Bool
  | .sleepSecs _ => true
  | .runScriptWait _ => true
  | .setAcState _ => false

/-! ## Screensaver / idle-monitor router (daemon.rs lines 141-203)

The session-bus router registers a watch-fired callback (lines 164-175) and
then loops: each iteration calls `dbus_session.process(1000)`; on `Ok(res)`
it re-arms the active watch when `res` is true (some message was handled)
and always re-arms the idle watch (lines 189-199). -/

/-- Device Controller state relevant to the idle router.  `light_off`,
`restore_light`, `add_idle_watch` and `add_active_watch` live in the
`device` module outside `src/`. -/
structure IdleDevState where
  idle_id : Nat
  active_id : Nat
  lightOn : Bool
deriving DecidableEq, Repr

/-- Modelled from the spec: `light_off` turns the keyboard light off
(spec sections 4.2 and 6). -/
def light_off (d : IdleDevState) : IdleDevState := { d with lightOn := false }

/-- Modelled from the spec: `restore_light` restores the keyboard light
(spec sections 4.2 and 6). -/
def restore_light (d : IdleDevState) : IdleDevState := { d with lightOn := true }

/-- Modelled from the spec: `add_idle_watch` registers a fresh one-shot idle
watch with the idle monitor and stores its identifier (spec section 4.2: the
idle-monitor API delivers one-shot notifications, so watches must be
re-registered).  The fresh identifier the service hands back is a
parameter. -/
def add_idle_watch (d : IdleDevState) (freshId : Nat) : IdleDevState :=
  { d with idle_id := freshId }

/-- Modelled from the spec: `add_active_watch` registers a fresh one-shot
active watch and stores its identifier. -/
def add_active_watch (d : IdleDevState) (freshId : Nat) : IdleDevState :=
  { d with active_id := freshId }

/-- The `WatchFired` callback (daemon.rs lines 164-175): under `if let Ok`,
an identifier matching the idle watch turns the light off, else one matching
the active watch restores it. -/
def watchFiredHandler (lockOk : Bool) (d : IdleDevState) (firedId : Nat) :
    IdleDevState :=
  if lockOk then
    if d.idle_id = firedId then light_off d
    else if d.active_id = firedId then restore_light d
    else d
  else d

/-- One iteration of the router loop (daemon.rs lines 189-199).  `pollOk`:
`process()` returned `Ok`; `events`: the watch identifiers fired during this
`process()` call, handled in order by the callback; `resFlag`: the boolean
`process()` returned (true when it handled at least one message — in
particular whenever `events` is nonempty); `freshActive`/`freshIdle`: the
identifiers the two re-registrations obtain.  Lock acquisitions inside the
iteration share the health flag `lockOk`. -/
def screensaverRouterIteration (lockOk pollOk resFlag : Bool)
    (events : List Nat) (freshActive freshIdle : Nat) (d : IdleDevState) :
    IdleDevState :=
  if pollOk then
    let d1 := events.foldl (watchFiredHandler lockOk) d
    let d2 := if resFlag then
        (if lockOk then add_active_watch d1 freshActive else d1)
      else d1
    if lockOk then add_idle_watch d2 freshIdle else d2
  else d

/-! ## Helper lemmas -/

theorem parseEffect_eq_none {name : String} (params : List Nat)
    (h1 : name ≠ "static") (h2 : name ≠ "static_gradient")
    (h3 : name ≠ "wave_gradient") (h4 : name ≠ "breathing_single") :
    parseEffect name params = none := by
  unfold parseEffect
  split <;> simp_all

theorem stdEffectCallResult_eq_false {d : DeviceManager} {name : String}
    (h : name ∉ ["off", "wave", "reactive", "breathing", "spectrum",
                 "static", "starlight"]) :
    stdEffectCallResult d name = false := by
  simp only [List.mem_cons, List.not_mem_nil, or_false, not_or] at h
  obtain ⟨h1, h2, h3, h4, h5, h6, h7⟩ := h
  unfold stdEffectCallResult
  split <;> simp_all

/-- With a temperature sequence that stays in the band of RPM `r` and
hardware writes that always succeed, the loop issues at most one
`set_fan_rpm` call from any starting `last_fan_speed`. -/
theorem tempMonitorRun_calls_le_one (seq : List (CycleEnv × Option ℚ))
    (r : Int)
    (hw : ∀ p ∈ seq, p.1.writeSucceeds = true)
    (hband : ∀ p ∈ seq, ∃ t, p.2 = some t ∧ requiredFanSpeed t = r) :
    ∀ last, (tempMonitorRun seq last).2 ≤ 1 := by
  induction seq with
  | nil => intro last; simp [tempMonitorRun]
  | cons p rest ih =>
    intro last
    obtain ⟨env, temp⟩ := p
    obtain ⟨t, ht, hr⟩ := hband (env, temp) (List.mem_cons_self _ _)
    replace ht : temp = some t := ht
    subst ht
    have hwrest := fun q hq => hw q (List.mem_cons_of_mem _ hq)
    have hbandrest : ∀ q ∈ rest, ∃ u, q.2 = some u ∧ requiredFanSpeed u = r :=
      fun q hq => hband q (List.mem_cons_of_mem _ hq)
    by_cases hlast : requiredFanSpeed t = last
    · have hstep : tempMonitorStep env last (some t) = (last, 0) := by
        simp [tempMonitorStep, hlast]
      simp only [tempMonitorRun, hstep]
      simpa using ih hwrest hbandrest last
    · have hsucc : env.writeSucceeds = true :=
        (hw (env, some t) (List.mem_cons_self _ _))
      cases hdl : env.devLockOk with
      | false =>
        have hstep : tempMonitorStep env last (some t) = (last, 0) := by
          simp [tempMonitorStep, hlast, hdl]
        simp only [tempMonitorRun, hstep]
        simpa using ih hwrest hbandrest last
      | true =>
        cases hdp : env.devicePresent with
        | false =>
          have hstep : tempMonitorStep env last (some t) = (last, 0) := by
            simp [tempMonitorStep, hlast, hdl, hdp]
          simp only [tempMonitorRun, hstep]
          simpa using ih hwrest hbandrest last
        | true =>
          have hstep : tempMonitorStep env last (some t) =
              (requiredFanSpeed t, 1) := by
            simp [tempMonitorStep, hlast, hdl, hdp, hsucc]
          have hrest : tempMonitorRun rest (requiredFanSpeed t) =
              (requiredFanSpeed t, 0) := by
            rw [hr]; exact tempMonitorRun_in_band rest r hbandrest
          simp [tempMonitorRun, hstep, hrest]

/-! ## Claim theorems -/

/-- Claim C1: every code path of the daemon that holds both the Device
Controller lock and the Effect Compositor lock simultaneously (the
`SetEffect`, `SetStandardEffect` and `GetKeyboardRGB` branches of the IPC
dispatcher and the keyboard animator loop) acquires the Device Controller
lock first and the Effect Compositor lock second; consequently no two
concurrently scheduled such paths can acquire the two locks in opposite
order and deadlock. -/
theorem C1_lock_ordering_no_deadlock :
    (∀ p ∈ dualLockPaths, respectsLockOrder p) ∧
    (∀ p ∈ dualLockPaths, ∀ q ∈ dualLockPaths, ¬ canDeadlock p q) := by
  have hall : ∀ p ∈ dualLockPaths, respectsLockOrder p := by decide
  exact ⟨hall, fun p hp q hq => no_deadlock_of_respects (hall p hp) (hall q hq)⟩

theorem C1_witness : ¬ canDeadlock setEffectLockOrder animatorLockOrder :=
  C1_lock_ordering_no_deadlock.2 setEffectLockOrder (by decide)
    animatorLockOrder (by decide)

/-- Claim C2: the temperature loop issues the `set_fan_rpm` hardware call
only when the newly computed RPM differs from the last RPM tracked in
`last_fan_speed` (initialized to the `-1` sentinel, and updated only when a
write succeeds); in particular, over any cycle sequence whose temperatures
stay within one band and whose hardware writes succeed, the hardware call is
issued at most once. -/
theorem C2_fan_hysteresis :
    last_fan_speed_init = -1 ∧
    (∀ env last temp, (tempMonitorStep env last temp).2 ≠ 0 →
      ∃ t, temp = some t ∧ requiredFanSpeed t ≠ last) ∧
    (∀ env last temp, (tempMonitorStep env last temp).1 ≠ last →
      env.writeSucceeds = true ∧ (tempMonitorStep env last temp).2 = 1 ∧
      ∃ t, temp = some t ∧ (tempMonitorStep env last temp).1 = requiredFanSpeed t) ∧
    (∀ (seq : List (CycleEnv × Option ℚ)) (r last : Int),
      (∀ p ∈ seq, p.1.devLockOk = true ∧ p.1.devicePresent = true ∧
        p.1.writeSucceeds = true) →
      (∀ p ∈ seq, ∃ t, p.2 = some t ∧ requiredFanSpeed t = r) →
      (tempMonitorRun seq last).2 ≤ 1) := by
  refine ⟨rfl, ?_, ?_, ?_⟩
  · intro env last temp h
    match temp with
    | none => simp [tempMonitorStep] at h
    | some t =>
      refine ⟨t, rfl, ?_⟩
      intro hlast
      simp [tempMonitorStep, hlast] at h
  · intro env last temp h
    match temp with
    | none => simp [tempMonitorStep] at h
    | some t =>
      by_cases hlast : requiredFanSpeed t = last
      · simp [tempMonitorStep, hlast] at h
      · cases hdl : env.devLockOk with
        | false => simp [tempMonitorStep, hlast, hdl] at h
        | true =>
          cases hdp : env.devicePresent with
          | false => simp [tempMonitorStep, hlast, hdl, hdp] at h
          | true =>
            cases hws : env.writeSucceeds with
            | false => simp [tempMonitorStep, hlast, hdl, hdp, hws] at h
            | true =>
              refine ⟨rfl, ?_, t, rfl, ?_⟩ <;>
                simp [tempMonitorStep, hlast, hdl, hdp, hws]
  · intro seq r last hok hband
    exact tempMonitorRun_calls_le_one seq r
      (fun p hp => (hok p hp).2.2) hband last

theorem C2_witness :
    (tempMonitorRun
      [(⟨true, true, true, true⟩, some 55), (⟨true, true, true, true⟩, some 60)]
      last_fan_speed_init).2 ≤ 1 :=
  C2_fan_hysteresis.2.2.2 _ 2000 last_fan_speed_init
    (by
      intro p hp
      simp only [List.mem_cons, List.not_mem_nil, or_false] at hp
      rcases hp with rfl | rfl <;> exact ⟨rfl, rfl, rfl⟩)
    (by
      intro p hp
      simp only [List.mem_cons, List.not_mem_nil, or_false] at hp
      rcases hp with rfl | rfl
      · exact ⟨55, rfl, by
          norm_num [requiredFanSpeed, TEMP_LOW, TEMP_MEDIUM, FAN_LOW]⟩
      · exact ⟨60, rfl, by
          norm_num [requiredFanSpeed, TEMP_LOW, TEMP_MEDIUM, FAN_LOW]⟩)

/-- Claim C3: the fan-policy step function maps `t < 50` to `FAN_AUTO`
(0 RPM), `50 ≤ t < 65` to `FAN_LOW` (2000 RPM), `65 ≤ t < 75` to
`FAN_MEDIUM` (3500 RPM), `75 ≤ t < 85` to `FAN_HIGH` (4500 RPM) and
`t ≥ 85` to `FAN_MAX` (5500 RPM); inputs 49.9, 64.9, 74.9, 84.9 and 90 map
to AUTO, LOW, MEDIUM, HIGH, MAX respectively, and the function is monotone
in temperature. -/
theorem C3_fan_policy_step :
    (∀ t : ℚ, t < 50 → requiredFanSpeed t = FAN_AUTO) ∧
    (∀ t : ℚ, 50 ≤ t → t < 65 → requiredFanSpeed t = FAN_LOW) ∧
    (∀ t : ℚ, 65 ≤ t → t < 75 → requiredFanSpeed t = FAN_MEDIUM) ∧
    (∀ t : ℚ, 75 ≤ t → t < 85 → requiredFanSpeed t = FAN_HIGH) ∧
    (∀ t : ℚ, 85 ≤ t → requiredFanSpeed t = FAN_MAX) ∧
    requiredFanSpeed (499/10) = FAN_AUTO ∧
    requiredFanSpeed (649/10) = FAN_LOW ∧
    requiredFanSpeed (749/10) = FAN_MEDIUM ∧
    requiredFanSpeed (849/10) = FAN_HIGH ∧
    requiredFanSpeed 90 = FAN_MAX ∧
    (∀ t u : ℚ, t ≤ u → requiredFanSpeed t ≤ requiredFanSpeed u) := by
  have hconsts : TEMP_LOW = 50 ∧ TEMP_MEDIUM = 65 ∧ TEMP_HIGH = 75 ∧
      TEMP_CRITICAL = 85 := ⟨rfl, rfl, rfl, rfl⟩
  obtain ⟨c1, c2, c3, c4⟩ := hconsts
  refine ⟨?_, ?_, ?_, ?_, ?_, ?_, ?_, ?_, ?_, ?_, ?_⟩
  · intro t h
    unfold requiredFanSpeed
    rw [c1, if_pos h]
  · intro t h1 h2
    unfold requiredFanSpeed
    rw [c1, c2, if_neg (by linarith), if_pos h2]
  · intro t h1 h2
    unfold requiredFanSpeed
    rw [c1, c2, c3, if_neg (by linarith), if_neg (by linarith), if_pos h2]
  · intro t h1 h2
    unfold requiredFanSpeed
    rw [c1, c2, c3, c4, if_neg (by linarith), if_neg (by linarith),
      if_neg (by linarith), if_pos h2]
  · intro t h1
    unfold requiredFanSpeed
    rw [c1, c2, c3, c4, if_neg (by linarith), if_neg (by linarith),
      if_neg (by linarith), if_neg (by linarith)]
  · norm_num [requiredFanSpeed, TEMP_LOW, FAN_AUTO]
  · norm_num [requiredFanSpeed, TEMP_LOW, TEMP_MEDIUM, FAN_LOW]
  · norm_num [requiredFanSpeed, TEMP_LOW, TEMP_MEDIUM, TEMP_HIGH, FAN_MEDIUM]
  · norm_num [requiredFanSpeed, TEMP_LOW, TEMP_MEDIUM, TEMP_HIGH,
      TEMP_CRITICAL, FAN_HIGH]
  · norm_num [requiredFanSpeed, TEMP_LOW, TEMP_MEDIUM, TEMP_HIGH,
      TEMP_CRITICAL, FAN_MAX]
  · intro t u htu
    simp only [requiredFanSpeed, TEMP_LOW, TEMP_MEDIUM, TEMP_HIGH,
      TEMP_CRITICAL, FAN_AUTO, FAN_LOW, FAN_MEDIUM, FAN_HIGH, FAN_MAX]
    split_ifs <;> norm_num <;> linarith

theorem C3_witness :
    requiredFanSpeed 40 = FAN_AUTO ∧
    requiredFanSpeed 40 ≤ requiredFanSpeed 90 :=
  ⟨C3_fan_policy_step.1 40 (by norm_num),
   C3_fan_policy_step.2.2.2.2.2.2.2.2.2.2 40 90 (by norm_num)⟩

/-- Claim C4: for every name outside
`{"static", "static_gradient", "wave_gradient", "breathing_single"}` and
every parameter list, `SetEffect` answers `result = false`, performs no
compositor operation (no pop, no push, hence no default effect), and leaves
the state unchanged. -/
theorem C4_set_effect_unknown_name (st : SysState) (name : String)
    (params : List Nat) (hlock : st.devLockOk = true)
    (hname : name ∉ ["static", "static_gradient", "wave_gradient",
                     "breathing_single"]) :
    process_client_request st (.SetEffect name params) =
      .ok (some (.SetEffect false), st, []) := by
  simp only [List.mem_cons, List.not_mem_nil, or_false, not_or] at hname
  obtain ⟨h1, h2, h3, h4⟩ := hname
  have hpe : parseEffect name params = none :=
    parseEffect_eq_none params h1 h2 h3 h4
  cases heff : st.effLockOk <;> cases hdev : st.dev.devicePresent <;>
    simp [process_client_request, hlock, heff, hdev, hpe]

theorem C4_witness :
    process_client_request
      ⟨true, true, ⟨true, none, true⟩, ⟨[(.Static [0, 255, 0], List.replicate 90 true)]⟩⟩
      (.SetEffect "rainbow" [1, 2, 3]) =
    .ok (some (.SetEffect false),
      ⟨true, true, ⟨true, none, true⟩, ⟨[(.Static [0, 255, 0], List.replicate 90 true)]⟩⟩,
      []) :=
  C4_set_effect_unknown_name _ _ _ rfl (by decide)

/-- Claim C5 counterexample: with a poisoned Device Controller lock the
keyboard animator loop body does not skip and continue — it panics (it calls
`DEV_MANAGER.lock().unwrap()`, daemon.rs line 133); likewise the
`GetKeyboardRGB` branch panics on a poisoned Effect Compositor lock
(`EFFECT_MANAGER.lock().unwrap()`, line 515). -/
theorem C5_counterexample :
    animatorBody ⟨false, true, ⟨true, none, true⟩, ⟨[]⟩⟩ = .panicked ∧
    process_client_request ⟨true, false, ⟨true, none, true⟩, ⟨[]⟩⟩
      (.GetKeyboardRGB 0) = .panicked :=
  ⟨rfl, rfl⟩

/-- Claim C5 (amended): lock acquisitions guarded by `if let Ok` tolerate a
poisoned lock by skipping the operation — the IPC dispatcher answers nothing
when the Device Controller lock is poisoned, and the `SetEffect` /
`SetStandardEffect` branches fail closed when the Effect Compositor lock is
poisoned — but the keyboard animator loop and the `GetKeyboardRGB` branch
`unwrap()` their lock acquisitions and panic on a poisoned lock. -/
theorem C5_poison_partial_tolerance (st : SysState) :
    (st.devLockOk = false →
      ∀ cmd, process_client_request st cmd = .ok (none, st, [])) ∧
    (st.devLockOk = true → st.effLockOk = false →
      ∀ name params,
        process_client_request st (.SetEffect name params) =
          .ok (some (.SetEffect false), st, []) ∧
        process_client_request st (.SetStandardEffect name params) =
          .ok (some (.SetStandardEffect false), st, [])) ∧
    (st.devLockOk = false → animatorBody st = .panicked) ∧
    (st.devLockOk = true → st.dev.devicePresent = true →
      st.effLockOk = false → animatorBody st = .panicked) ∧
    (st.devLockOk = true → st.effLockOk = false →
      ∀ layer, process_client_request st (.GetKeyboardRGB layer) = .panicked) := by
  refine ⟨?_, ?_, ?_, ?_, ?_⟩
  · intro h cmd
    simp [process_client_request, h]
  · intro hd he name params
    constructor
    · simp [process_client_request, hd, he]
    · cases hdev : st.dev.devicePresent <;>
        simp [process_client_request, hd, he, hdev]
  · intro h
    simp [animatorBody, h]
  · intro hd hdev he
    simp [animatorBody, hd, hdev, he]
  · intro hd he layer
    simp [process_client_request, hd, he]

theorem C5_witness :
    process_client_request ⟨false, true, ⟨true, none, true⟩, ⟨[]⟩⟩
      (.SetEffect "static" [255, 0, 0]) =
      .ok (none, ⟨false, true, ⟨true, none, true⟩, ⟨[]⟩⟩, []) ∧
    animatorBody ⟨true, false, ⟨true, none, true⟩, ⟨[]⟩⟩ = .panicked :=
  ⟨(C5_poison_partial_tolerance ⟨false, true, ⟨true, none, true⟩, ⟨[]⟩⟩).1 rfl _,
   (C5_poison_partial_tolerance ⟨true, false, ⟨true, none, true⟩, ⟨[]⟩⟩).2.2.2.1
     rfl rfl rfl⟩

/-- Claim C6 counterexample: the AC-adapter `Online` callback is not
fire-and-forget — its synchronous action trace contains actions during which
the router loop is blocked (the 2-second settle sleep and the waited-on
script run), refuting the claim at the concrete input
`env = ⟨true, true, true⟩`, `online = true`. -/
theorem C6_counterexample :
    ¬ ((acSignalHandlerTrace ⟨true, true, true⟩ true).all
        (fun a => !acActionBlocks a) = true) := by
  decide

/-- Claim C6 (amended): on an AC online/offline change the callback first
updates the cached AC state (when the device lock is healthy), then — still
synchronously inside the router loop's dispatch — sleeps the 2-second settle
delay and, when `HOME` is known and the handler script exists, runs it with
the single argument `"plugged"` / `"unplugged"` and waits for it to finish;
the router loop therefore cannot dispatch later signals before the delay and
the script complete.  No script run happens when the script is absent. -/
theorem C6_ac_handler_blocking (env : AcEnv) (online : Bool) :
    (env.devLockOk = true →
      (acSignalHandlerTrace env online).head? = some (.setAcState online)) ∧
    AcAction.sleepSecs 2 ∈ acSignalHandlerTrace env online ∧
    (env.homeKnown = true → env.scriptExists = true →
      AcAction.runScriptWait (if online then "plugged" else "unplugged") ∈
        acSignalHandlerTrace env online) ∧
    (env.scriptExists = false →
      ∀ s, AcAction.runScriptWait s ∉ acSignalHandlerTrace env online) ∧
    (acSignalHandlerTrace env online).any acActionBlocks = true := by
  obtain ⟨dl, hk, se⟩ := env
  cases dl <;> cases hk <;> cases se <;>
    simp [acSignalHandlerTrace, acActionBlocks]

theorem C6_witness :
    (acSignalHandlerTrace ⟨true, true, true⟩ true).head? =
      some (.setAcState true) ∧
    AcAction.sleepSecs 2 ∈ acSignalHandlerTrace ⟨true, true, true⟩ true ∧
    AcAction.runScriptWait "plugged" ∈
      acSignalHandlerTrace ⟨true, true, true⟩ true :=
  ⟨(C6_ac_handler_blocking ⟨true, true, true⟩ true).1 rfl,
   (C6_ac_handler_blocking ⟨true, true, true⟩ true).2.1,
   by simpa using
     (C6_ac_handler_blocking ⟨true, true, true⟩ true).2.2.1 rfl rfl⟩

/-- Claim C7: in the idle-monitor router, an iteration that processed an
idle-triggered watch-fired event (so the poll reports a handled message)
re-arms the active watch, and every successful poll iteration re-arms the
idle watch; consequently, after an idle-triggered event, a following
watch-fired event bearing the (re-armed) active-watch identifier still
triggers light-restore. -/
theorem C7_watch_rearm :
    (∀ (events : List Nat) (fa fi : Nat) (d : IdleDevState),
      d.idle_id ∈ events →
      (screensaverRouterIteration true true true events fa fi d).active_id = fa) ∧
    (∀ (resFlag : Bool) (events : List Nat) (fa fi : Nat) (d : IdleDevState),
      (screensaverRouterIteration true true resFlag events fa fi d).idle_id = fi) ∧
    (∀ (d : IdleDevState) (fa1 fi1 fa2 fi2 : Nat), fa1 ≠ fi1 →
      (screensaverRouterIteration true true true [d.idle_id] fa1 fi1 d).lightOn
        = false ∧
      (screensaverRouterIteration true true true
        [(screensaverRouterIteration true true true [d.idle_id] fa1 fi1 d).active_id]
        fa2 fi2
        (screensaverRouterIteration true true true [d.idle_id] fa1 fi1 d)).lightOn
        = true) := by
  refine ⟨?_, ?_, ?_⟩
  · intro events fa fi d _
    simp [screensaverRouterIteration, add_active_watch, add_idle_watch]
  · intro resFlag events fa fi d
    cases resFlag <;>
      simp [screensaverRouterIteration, add_active_watch, add_idle_watch]
  · intro d fa1 fi1 fa2 fi2 hne
    have hd1 : screensaverRouterIteration true true true [d.idle_id] fa1 fi1 d =
        ⟨fi1, fa1, false⟩ := by
      simp [screensaverRouterIteration, watchFiredHandler, light_off,
        add_active_watch, add_idle_watch]
    rw [hd1]
    refine ⟨rfl, ?_⟩
    have hne' : ¬ (fi1 = fa1) := fun h => hne h.symm
    simp [screensaverRouterIteration, watchFiredHandler, restore_light,
      add_active_watch, add_idle_watch, hne']

theorem C7_witness :
    (screensaverRouterIteration true true true [5] 10 11 ⟨5, 7, true⟩).lightOn
      = false ∧
    (screensaverRouterIteration true true true
      [(screensaverRouterIteration true true true [5] 10 11 ⟨5, 7, true⟩).active_id]
      20 21
      (screensaverRouterIteration true true true [5] 10 11 ⟨5, 7, true⟩)).lightOn
      = true :=
  C7_watch_rearm.2.2 ⟨5, 7, true⟩ 10 11 20 21 (by decide)

/-- Claim C8: for `GetBatteryHealthOptimizer`, when the device's BHO getter
has a value the client is sent a response carrying that `(is_on, threshold)`
pair; when the getter reports the value absent, the dispatcher produces no
response and nothing is written back on the connection. -/
theorem C8_get_bho_response (st : SysState) (hlock : st.devLockOk = true) :
    (∀ p : Bool × Nat, st.dev.bho = some p →
      process_client_request st .GetBatteryHealthOptimizer =
        .ok (some (.GetBatteryHealthOptimizer p.1 p.2), st, []) ∧
      handle_data st (some .GetBatteryHealthOptimizer) =
        .ok (some (.GetBatteryHealthOptimizer p.1 p.2))) ∧
    (st.dev.bho = none →
      process_client_request st .GetBatteryHealthOptimizer =
        .ok (none, st, []) ∧
      handle_data st (some .GetBatteryHealthOptimizer) = .ok none) := by
  constructor
  · intro p hp
    constructor <;> simp [process_client_request, handle_data, hlock, hp]
  · intro hp
    constructor <;> simp [process_client_request, handle_data, hlock, hp]

theorem C8_witness :
    handle_data ⟨true, true, ⟨true, none, true⟩, ⟨[]⟩⟩
      (some .GetBatteryHealthOptimizer) = .ok none ∧
    handle_data ⟨true, true, ⟨true, some (true, 80), true⟩, ⟨[]⟩⟩
      (some .GetBatteryHealthOptimizer) =
      .ok (some (.GetBatteryHealthOptimizer true 80)) :=
  ⟨((C8_get_bho_response ⟨true, true, ⟨true, none, true⟩, ⟨[]⟩⟩ rfl).2 rfl).2,
   ((C8_get_bho_response ⟨true, true, ⟨true, some (true, 80), true⟩, ⟨[]⟩⟩ rfl).1
      (true, 80) rfl).2⟩

/-- Claim C9: the CPU-temperature reader returns `some t` only for
`20 < t < 120` (after dividing raw values above 1000 by 1000); readings
outside that open range are discarded, and when no candidate passes the
check the reader returns `none`, which the fan loop treats as
temperature-source-unavailable, leaving `last_fan_speed` unchanged and
issuing no hardware call. -/
theorem C9_cpu_temperature_sanity :
    (∀ (primary fallback : List ℚ) (t : ℚ),
      get_cpu_temperature primary fallback = some t → 20 < t ∧ t < 120) ∧
    (∀ primary fallback : List ℚ,
      (∀ t ∈ primary, ¬(20 < scaleCelsius t ∧ scaleCelsius t < 120)) →
      (∀ t ∈ fallback, ¬(20 < t ∧ t < 120)) →
      get_cpu_temperature primary fallback = none) ∧
    (∀ env last, tempMonitorStep env last none = (last, 0)) := by
  refine ⟨?_, ?_, ?_⟩
  · intro primary fallback t h
    unfold get_cpu_temperature at h
    cases hp : findPrimaryTemp primary with
    | some c =>
      rw [hp] at h
      cases h
      exact findPrimaryTemp_range hp
    | none =>
      rw [hp] at h
      exact findFallbackTemp_range h
  · intro primary fallback h1 h2
    unfold get_cpu_temperature
    rw [findPrimaryTemp_none h1, findFallbackTemp_none h2]
  · intro env last
    rfl

theorem C9_witness :
    get_cpu_temperature [55000] [] = some 55 ∧
    (20 : ℚ) < 55 ∧ (55 : ℚ) < 120 := by
  have h : get_cpu_temperature [55000] [] = some 55 := by
    norm_num [get_cpu_temperature, findPrimaryTemp, scaleCelsius]
  exact ⟨h, C9_cpu_temperature_sanity.1 [55000] [] 55 h⟩

/-- Claim C10: in the `SetStandardEffect` branch, with a discovered device
and a healthy Effect Compositor lock, the current client layer is popped
before the effect name is matched; for every name outside
`{"off", "wave", "reactive", "breathing", "spectrum", "static",
"starlight"}` the command answers `result = false` while the topmost layer
has nevertheless been removed from the stack. -/
theorem C10_standard_effect_pops_before_match (st : SysState) (name : String)
    (params : List Nat) (hlock : st.devLockOk = true)
    (hdev : st.dev.devicePresent = true) (heff : st.effLockOk = true)
    (hname : name ∉ ["off", "wave", "reactive", "breathing", "spectrum",
                     "static", "starlight"]) :
    process_client_request st (.SetStandardEffect name params) =
      .ok (some (.SetStandardEffect false),
           { st with km := ⟨st.km.stack.tail⟩ }, [.pop]) := by
  have hres : stdEffectCallResult st.dev name = false :=
    stdEffectCallResult_eq_false hname
  simp [process_client_request, hlock, hdev, heff, hres, applyKOps, applyKOp,
    pop_effect]

theorem C10_witness :
    process_client_request
      ⟨true, true, ⟨true, none, true⟩,
       ⟨[(.Static [0, 255, 0], List.replicate 90 true),
         (.WaveGradient [1], List.replicate 90 true)]⟩⟩
      (.SetStandardEffect "disco" []) =
    .ok (some (.SetStandardEffect false),
      ⟨true, true, ⟨true, none, true⟩,
       ⟨[(.WaveGradient [1], List.replicate 90 true)]⟩⟩,
      [.pop]) :=
  C10_standard_effect_pops_before_match _ _ _ rfl rfl rfl (by decide)

end RazerDaemon
